import Mathlib

/-!
Shallow embedding of `src/rust/lanzaboote/src/linux_loader.rs`: the
firmware-resident initrd delivery shim.  Bytes are modelled as `Nat`,
byte buffers as `List Nat`, nullable pointers as `Option`, fallible
calls as `Except Status`, and Rust panics / `assert!` aborts as `none`
of an `Option` result.  Firmware (UEFI boot services) is modelled by an
oracle giving the outcome of each boot-services call together with an
explicit firmware state: the set of protocol interfaces installed on
handles and a trace of the calls made.
-/

namespace LinuxLoader

/-- UEFI status codes that appear in the module (`uefi::Status`).
`SUCCESS` is what `Result::Ok` flattens to at the `efiapi` boundary. -/
inductive Status
  | SUCCESS
  | BUFFER_TOO_SMALL
  | INVALID_PARAMETER
  | END_OF_FILE
  | ACCESS_DENIED
  | SECURITY_VIOLATION
  | OUT_OF_RESOURCES
  deriving DecidableEq

/-- The `LoadFile2Protocol` struct.  The leading `load_file` function
pointer field is the constant `raw_load_file` in the source and carries
no state, so only the owned `initrd_data` payload is modelled. -/
structure LoadFile2Protocol where
  initrd_data : List Nat
  deriving DecidableEq

/-- Model of `LoadFile2Protocol::load_file` (linux_loader.rs lines 69-93).
The in/out `*mut usize` size slot is modelled by its value before the
call (argument) and after the call (second component of the result);
the `*mut c_void` output buffer is `none` when null, otherwise the
caller's memory contents.  On success the first `initrd_data.len()`
bytes of the buffer are overwritten and the rest is untouched. -/
def LoadFile2Protocol.load_file (self : LoadFile2Protocol)
    (buffer_size : Nat) (buffer : Option (List Nat)) :
    Except Status Unit × Nat × Option (List Nat) :=
  match buffer with
  | none => (.error .BUFFER_TOO_SMALL, self.initrd_data.length, none)
  | some buf =>
    if buffer_size < self.initrd_data.length then
      (.error .BUFFER_TOO_SMALL, self.initrd_data.length, some buf)
    else
      (.ok (), self.initrd_data.length,
        some (self.initrd_data ++ buf.drop self.initrd_data.length))

/-- Model of `Result::status()`: flatten a `uefi::Result<()>` to a raw
status. -/
def statusOf : Except Status Unit → Status
  | .ok () => .SUCCESS
  | .error e => e

/-- Model of `raw_load_file` (lines 96-105): the `efiapi` entrypoint handed to
firmware; calls `load_file` and flattens the result to a status code. -/
def raw_load_file (this : LoadFile2Protocol)
    (buffer_size : Nat) (buffer : Option (List Nat)) :
    Status × Nat × Option (List Nat) :=
  let r := this.load_file buffer_size buffer
  (statusOf r.1, r.2.1, r.2.2)

/-- A PE section header as exposed by the external `goblin` crate:
the fields `initrd_location` reads. -/
structure PESection where
  name : String
  pointer_to_raw_data : Nat
  size_of_raw_data : Nat
  deriving DecidableEq

/-- A parsed PE binary (`goblin::pe::PE`): the section table in
declared order. -/
structure PE where
  sections : List PESection
  deriving DecidableEq

/-- The envelope passed to `InitrdLoader::new`.  The Rust code receives
only the raw bytes and parses them with the external `goblin` crate;
since `goblin` is a third-party dependency and not part of this
repository, its parse outcome is modelled as part of the input:
`parsed = none` models a `goblin` parse error and `parsed = some pe` a
successful parse yielding the section table `pe.sections`.  No relation
between `bytes` and `parsed` is assumed: the section table's offsets
and sizes are exactly as untrusted as in the source. -/
structure Envelope where
  bytes : List Nat
  parsed : Option PE
  deriving DecidableEq

/-- Model of `core::ops::Range<usize>`; the field `stop` models `end`, a
Lean keyword. -/
structure NatRange where
  start : Nat
  stop : Nat
  deriving DecidableEq

/-- Model of `initrd_location` (lines 121-138): parse the envelope, scan the
sections in declared order for the first one named `.initrd`, and
return `[pointer_to_raw_data, pointer_to_raw_data + size_of_raw_data)`.
A parse failure is `INVALID_PARAMETER`; a missing section is
`END_OF_FILE`.  Note: the returned endpoints are not checked against
the envelope length. -/
def initrd_location (initrd_efi : Envelope) : Except Status NatRange :=
  match initrd_efi.parsed with
  | none => .error .INVALID_PARAMETER
  | some pe =>
    match pe.sections.find? (fun s => s.name == ".initrd") with
    | some s => .ok ⟨s.pointer_to_raw_data,
                     s.pointer_to_raw_data + s.size_of_raw_data⟩
    | none => .error .END_OF_FILE

/-- A firmware handle (`uefi::Handle`), opaque. -/
abbrev Handle := Nat

/-- The two protocol GUIDs the module installs: `DevicePath::GUID` and
`LoadFile2Protocol::GUID` (`4006c0c1-fcb3-403e-996d-4a6c8724e06d`). -/
inductive Guid
  | devicePath
  | loadFile2
  deriving DecidableEq

/-- An interface pointer handed to firmware.  `devicePathStatic` is the
pointer into the single shared `static DEVICE_PATH_PROTOCOL` storage
(the same one for every loader instance); `loadFileProto` is the pinned
`LoadFile2Protocol` object, identified by its contents. -/
inductive Interface
  | devicePathStatic
  | loadFileProto (proto : LoadFile2Protocol)
  deriving DecidableEq

/-- One boot-services call, as recorded in the firmware trace. -/
inductive FwEvent
  | loadImage
  | unloadImage
  | installInterface (handle : Handle) (guid : Guid) (intf : Interface)
  | uninstallInterface (handle : Handle) (guid : Guid) (intf : Interface)
  deriving DecidableEq

/-- Firmware state: the protocol database (which interfaces are
installed on which handle) and the trace of boot-services calls. -/
structure FwState where
  installed : List (Handle × Guid × Interface)
  trace : List FwEvent
  deriving DecidableEq

/-- Oracle for the outcome of each boot-services call made by this
module: `none` means the call succeeds, `some e` that firmware reports
status `e`.  `loadImageResult` is the image-authentication gate:
`some e` models the security policy rejecting the envelope. -/
structure BootServices where
  loadImageResult : Option Status
  unloadImageResult : Option Status
  installDpResult : Option Status
  installLfResult : Option Status
  uninstallDpResult : Option Status
  uninstallLfResult : Option Status
  deriving DecidableEq

/-- Model of `BootServices::install_protocol_interface`: on success the
interface is appended to the protocol database; either way the call is
recorded in the trace. -/
def installProtocolInterface (res : Option Status) (h : Handle)
    (g : Guid) (i : Interface) (st : FwState) :
    Except Status Unit × FwState :=
  match res with
  | some e => (.error e,
      { st with trace := st.trace ++ [.installInterface h g i] })
  | none => (.ok (),
      { installed := st.installed ++ [(h, g, i)],
        trace := st.trace ++ [.installInterface h g i] })

/-- Model of `BootServices::uninstall_protocol_interface`: on success the
matching entry is removed from the protocol database; either way the
call is recorded in the trace. -/
def uninstallProtocolInterface (res : Option Status) (h : Handle)
    (g : Guid) (i : Interface) (st : FwState) :
    Except Status Unit × FwState :=
  match res with
  | some e => (.error e,
      { st with trace := st.trace ++ [.uninstallInterface h g i] })
  | none => (.ok (),
      { installed := st.installed.filter (fun p => decide (p ≠ (h, g, i))),
        trace := st.trace ++ [.uninstallInterface h g i] })

/-- Model of `initrd_verify` (lines 144-160): submit the whole envelope to
`load_image` (the secure-boot authentication gate) and, if that
succeeds, immediately `unload_image` it.  Errors propagate. -/
def initrd_verify (bs : BootServices) (st : FwState) :
    Except Status Unit × FwState :=
  let st1 : FwState := { st with trace := st.trace ++ [.loadImage] }
  match bs.loadImageResult with
  | some e => (.error e, st1)
  | none =>
    let st2 : FwState := { st1 with trace := st1.trace ++ [.unloadImage] }
    match bs.unloadImageResult with
    | some e => (.error e, st2)
    | none => (.ok (), st2)

/-- Model of `Vec::drain(0..n)`: remove the first `n` elements.  Rust panics if
`n` exceeds the length, modelled by `none`. -/
def drainFront (v : List Nat) (n : Nat) : Option (List Nat) :=
  if n ≤ v.length then some (v.drop n) else none

/-- Model of `Vec::resize(n, 0)`: truncate to `n` elements, or pad with zero
bytes up to `n`. -/
def vecResize (v : List Nat) (n : Nat) : List Nat :=
  if n ≤ v.length then v.take n else v ++ List.replicate (n - v.length) 0

/-- The RAII wrapper (lines 112-116): the pinned protocol object, the
handle the interfaces are registered on, and the `registered` flag. -/
structure InitrdLoader where
  proto : LoadFile2Protocol
  handle : Handle
  registered : Bool
  deriving DecidableEq

/-- Model of `static mut DEVICE_PATH_PROTOCOL` (lines 44-47): the 24-byte
device-path descriptor, shared static storage. -/
def DEVICE_PATH_PROTOCOL : List Nat :=
  [0x04, 0x03, 0x14, 0x00, 0x27, 0xe4, 0x68, 0x55,
   0xfc, 0x68, 0x3d, 0x4f, 0xac, 0x74, 0xca, 0x55,
   0x52, 0x31, 0xcc, 0x68, 0x7f, 0xff, 0x04, 0x00]

/-- The 24 descriptor bytes exactly as printed in the spec's
external-interfaces section (§6), written from the spec's words for
comparison with `DEVICE_PATH_PROTOCOL`. -/
def spec_device_path_bytes : List Nat :=
  [0x04, 0x03, 0x14, 0x00,
   0x27, 0xE4, 0x68, 0x55, 0xFC, 0x68, 0x3D, 0x4F,
   0xAC, 0x74, 0xCA, 0x55, 0x52, 0x31, 0xCC, 0x68,
   0x7F, 0xFF, 0x04, 0x00]

/-- Model of `InitrdLoader::new` (lines 167-213): authenticate the envelope,
locate the `.initrd` section, compact the buffer in place
(`drain(0..start)` then `resize(end - start, 0)`), pin the protocol
object, then install the device-path interface and the load-file
interface on `handle`, in that order.  `none` models a Rust panic
(out-of-range `drain`). -/
def InitrdLoader.new (bs : BootServices) (handle : Handle)
    (env : Envelope) (st : FwState) :
    Option (Except Status InitrdLoader × FwState) :=
  match initrd_verify bs st with
  | (.error e, st1) => some (.error e, st1)
  | (.ok (), st1) =>
    match initrd_location env with
    | .error e => some (.error e, st1)
    | .ok range =>
      match drainFront env.bytes range.start with
      | none => none
      | some drained =>
        let initrd_data := vecResize drained (range.stop - range.start)
        let proto : LoadFile2Protocol := { initrd_data }
        match installProtocolInterface bs.installDpResult handle
            .devicePath .devicePathStatic st1 with
        | (.error e, st2) => some (.error e, st2)
        | (.ok (), st2) =>
          match installProtocolInterface bs.installLfResult handle
              .loadFile2 (.loadFileProto proto) st2 with
          | (.error e, st3) => some (.error e, st3)
          | (.ok (), st3) =>
            some (.ok { proto, handle, registered := true }, st3)

/-- Model of `InitrdLoader::uninstall` (lines 215-239): assert `registered`
(`none` models the fatal abort of a violated assertion), uninstall the
device-path interface, then the load-file interface; only after both
succeed set `registered` to `false`. -/
def InitrdLoader.uninstall (self : InitrdLoader) (bs : BootServices)
    (st : FwState) :
    Option (Except Status Unit × InitrdLoader × FwState) :=
  if self.registered then
    match uninstallProtocolInterface bs.uninstallDpResult self.handle
        .devicePath .devicePathStatic st with
    | (.error e, st1) => some (.error e, self, st1)
    | (.ok (), st1) =>
      match uninstallProtocolInterface bs.uninstallLfResult self.handle
          .loadFile2 (.loadFileProto self.proto) st1 with
      | (.error e, st2) => some (.error e, self, st2)
      | (.ok (), st2) =>
        some (.ok (), { self with registered := false }, st2)
  else
    none

/-- Model of `impl Drop for InitrdLoader` (lines 242-247): assert
`!self.registered` (`none` models the fatal abort); otherwise nothing
happens — in particular no boot-services call is made, so the firmware
state is returned unchanged. -/
def InitrdLoader.drop (self : InitrdLoader) (st : FwState) :
    Option FwState :=
  if self.registered then none else some st

/-- Extract the owned payload from a `new` outcome: `some` exactly when
`new` returned a loader successfully. -/
def payloadOf : Option (Except Status InitrdLoader × FwState) →
    Option (List Nat)
  | some (.ok ldr, _) => some ldr.proto.initrd_data
  | _ => none

/-- Oracle where every boot-services call succeeds. -/
def bsAllOk : BootServices := ⟨none, none, none, none, none, none⟩

/-- Oracle where the image-authentication gate rejects the envelope. -/
def bsAuthFail : BootServices :=
  { bsAllOk with loadImageResult := some .ACCESS_DENIED }

/-- Oracle where installing the load-file interface fails (after the
device-path install succeeded). -/
def bsLfInstallFail : BootServices :=
  { bsAllOk with installLfResult := some .OUT_OF_RESOURCES }

/-- Oracle where uninstalling the device-path interface fails. -/
def bsDpUninstallFail : BootServices :=
  { bsAllOk with uninstallDpResult := some .OUT_OF_RESOURCES }

/-- The empty firmware state. -/
def st0 : FwState := ⟨[], []⟩

/-- Example envelope: 8 bytes, `.initrd` section at `[4, 7)`, payload
`[104, 105, 106]`, well within bounds. -/
def exEnv : Envelope :=
  ⟨[100, 101, 102, 103, 104, 105, 106, 107],
   some ⟨[⟨".initrd", 4, 3⟩]⟩⟩

/-- Example envelope that parses but has no `.initrd` section. -/
def noInitrdEnv : Envelope := ⟨[1, 2, 3], some ⟨[⟨".text", 0, 3⟩]⟩⟩

/-- Envelope of 10 bytes whose `.initrd` section declares
`size_of_raw_data = 100`, extending far past the buffer. -/
def c3Env : Envelope :=
  ⟨[0, 1, 2, 3, 4, 5, 6, 7, 8, 9], some ⟨[⟨".initrd", 4, 100⟩]⟩⟩

/-- Envelope of 4 bytes whose `.initrd` section declares the range
`[2, 6)`: it starts inside but ends past the buffer. -/
def c4Env : Envelope := ⟨[10, 20, 30, 40], some ⟨[⟨".initrd", 2, 4⟩]⟩⟩

/-- The loader produced by a successful `new` on `exEnv`, handle 7. -/
def exLoader : InitrdLoader := ⟨⟨[104, 105, 106]⟩, 7, true⟩

/-- The loader `exLoader` after a successful `uninstall`. -/
def exLoaderDone : InitrdLoader := ⟨⟨[104, 105, 106]⟩, 7, false⟩

/-- Firmware state after `InitrdLoader.new bsAllOk 7 exEnv st0`. -/
def exStAfterNew : FwState :=
  ⟨[(7, .devicePath, .devicePathStatic),
    (7, .loadFile2, .loadFileProto ⟨[104, 105, 106]⟩)],
   [.loadImage, .unloadImage,
    .installInterface 7 .devicePath .devicePathStatic,
    .installInterface 7 .loadFile2 (.loadFileProto ⟨[104, 105, 106]⟩)]⟩

/-- Firmware state after then uninstalling `exLoader`. -/
def exStAfterUninstall : FwState :=
  ⟨[], exStAfterNew.trace ++
    [.uninstallInterface 7 .devicePath .devicePathStatic,
     .uninstallInterface 7 .loadFile2 (.loadFileProto ⟨[104, 105, 106]⟩)]⟩

lemma new_ok_eval (bs : BootServices) (h : Handle) (env : Envelope)
    (st : FwState) (r : NatRange) (drained : List Nat)
    (h1 : bs.loadImageResult = none) (h2 : bs.unloadImageResult = none)
    (h3 : initrd_location env = .ok r)
    (h4 : drainFront env.bytes r.start = some drained)
    (h5 : bs.installDpResult = none) (h6 : bs.installLfResult = none) :
    InitrdLoader.new bs h env st =
      some (.ok ⟨⟨vecResize drained (r.stop - r.start)⟩, h, true⟩,
        ⟨st.installed ++ [(h, .devicePath, .devicePathStatic),
            (h, .loadFile2,
             .loadFileProto ⟨vecResize drained (r.stop - r.start)⟩)],
         st.trace ++ [.loadImage, .unloadImage,
            .installInterface h .devicePath .devicePathStatic,
            .installInterface h .loadFile2
              (.loadFileProto ⟨vecResize drained (r.stop - r.start)⟩)]⟩) := by
  simp [InitrdLoader.new, initrd_verify, installProtocolInterface,
    h1, h2, h3, h4, h5, h6]

lemma new_auth_fail_eval (bs : BootServices) (h : Handle) (env : Envelope)
    (st : FwState) (e : Status) (h1 : bs.loadImageResult = some e) :
    InitrdLoader.new bs h env st =
      some (.error e, ⟨st.installed, st.trace ++ [.loadImage]⟩) := by
  simp [InitrdLoader.new, initrd_verify, h1]

lemma new_location_fail_eval (bs : BootServices) (h : Handle)
    (env : Envelope) (st : FwState) (e : Status)
    (h1 : bs.loadImageResult = none) (h2 : bs.unloadImageResult = none)
    (h3 : initrd_location env = .error e) :
    InitrdLoader.new bs h env st =
      some (.error e,
        ⟨st.installed, st.trace ++ [.loadImage, .unloadImage]⟩) := by
  simp [InitrdLoader.new, initrd_verify, h1, h2, h3]

lemma new_installLf_fail_eval (bs : BootServices) (h : Handle)
    (env : Envelope) (st : FwState) (e : Status) (r : NatRange)
    (drained : List Nat)
    (h1 : bs.loadImageResult = none) (h2 : bs.unloadImageResult = none)
    (h3 : initrd_location env = .ok r)
    (h4 : drainFront env.bytes r.start = some drained)
    (h5 : bs.installDpResult = none) (h6 : bs.installLfResult = some e) :
    InitrdLoader.new bs h env st =
      some (.error e,
        ⟨st.installed ++ [(h, .devicePath, .devicePathStatic)],
         st.trace ++ [.loadImage, .unloadImage,
            .installInterface h .devicePath .devicePathStatic,
            .installInterface h .loadFile2
              (.loadFileProto ⟨vecResize drained (r.stop - r.start)⟩)]⟩) := by
  simp [InitrdLoader.new, initrd_verify, installProtocolInterface,
    h1, h2, h3, h4, h5, h6]

lemma new_ok_cases (bs : BootServices) (h : Handle) (env : Envelope)
    (st : FwState) (ldr : InitrdLoader) (st2 : FwState)
    (hok : InitrdLoader.new bs h env st = some (.ok ldr, st2)) :
    bs.loadImageResult = none ∧ bs.unloadImageResult = none ∧
    bs.installDpResult = none ∧ bs.installLfResult = none ∧
    ∃ r drained, initrd_location env = .ok r ∧
      drainFront env.bytes r.start = some drained ∧
      ldr = ⟨⟨vecResize drained (r.stop - r.start)⟩, h, true⟩ ∧
      st2 = ⟨st.installed ++ [(h, .devicePath, .devicePathStatic),
               (h, .loadFile2,
                .loadFileProto ⟨vecResize drained (r.stop - r.start)⟩)],
             st.trace ++ [.loadImage, .unloadImage,
               .installInterface h .devicePath .devicePathStatic,
               .installInterface h .loadFile2
                 (.loadFileProto ⟨vecResize drained (r.stop - r.start)⟩)]⟩ := by
  cases h1 : bs.loadImageResult with
  | some e => simp [InitrdLoader.new, initrd_verify, h1] at hok
  | none =>
  cases h2 : bs.unloadImageResult with
  | some e => simp [InitrdLoader.new, initrd_verify, h1, h2] at hok
  | none =>
  cases h3 : initrd_location env with
  | error e => simp [InitrdLoader.new, initrd_verify, h1, h2, h3] at hok
  | ok r =>
  cases h4 : drainFront env.bytes r.start with
  | none => simp [InitrdLoader.new, initrd_verify, h1, h2, h3, h4] at hok
  | some drained =>
  cases h5 : bs.installDpResult with
  | some e =>
      simp [InitrdLoader.new, initrd_verify, installProtocolInterface,
        h1, h2, h3, h4, h5] at hok
  | none =>
  cases h6 : bs.installLfResult with
  | some e =>
      simp [InitrdLoader.new, initrd_verify, installProtocolInterface,
        h1, h2, h3, h4, h5, h6] at hok
  | none =>
    simp [InitrdLoader.new, initrd_verify, installProtocolInterface,
      h1, h2, h3, h4, h5, h6] at hok
    refine ⟨rfl, rfl, rfl, rfl, r, drained, rfl, h4, ?_, ?_⟩
    · exact hok.1.symm
    · exact hok.2.symm

lemma uninstall_ok_cases (self : InitrdLoader) (bs : BootServices)
    (st : FwState) (self2 : InitrdLoader) (st2 : FwState)
    (hok : InitrdLoader.uninstall self bs st = some (.ok (), self2, st2)) :
    self.registered = true ∧ bs.uninstallDpResult = none ∧
    bs.uninstallLfResult = none ∧
    self2 = { self with registered := false } ∧
    st2.trace = st.trace ++
      [.uninstallInterface self.handle .devicePath .devicePathStatic,
       .uninstallInterface self.handle .loadFile2
         (.loadFileProto self.proto)] := by
  by_cases hreg : self.registered
  case neg => simp [InitrdLoader.uninstall, hreg] at hok
  case pos =>
  cases h1 : bs.uninstallDpResult with
  | some e =>
      simp [InitrdLoader.uninstall, uninstallProtocolInterface,
        hreg, h1] at hok
  | none =>
  cases h2 : bs.uninstallLfResult with
  | some e =>
      simp [InitrdLoader.uninstall, uninstallProtocolInterface,
        hreg, h1, h2] at hok
  | none =>
    simp [InitrdLoader.uninstall, uninstallProtocolInterface,
      hreg, h1, h2] at hok
    obtain ⟨hself, hst⟩ := hok
    refine ⟨hreg, rfl, rfl, hself.symm, ?_⟩
    rw [← hst]

lemma uninstall_dp_fail_eval (self : InitrdLoader) (bs : BootServices)
    (st : FwState) (e : Status)
    (hreg : self.registered = true) (h1 : bs.uninstallDpResult = some e) :
    InitrdLoader.uninstall self bs st = some (.error e, self,
      ⟨st.installed, st.trace ++
        [.uninstallInterface self.handle .devicePath .devicePathStatic]⟩) := by
  simp [InitrdLoader.uninstall, uninstallProtocolInterface, hreg, h1]

lemma uninstall_lf_fail_eval (self : InitrdLoader) (bs : BootServices)
    (st : FwState) (e : Status)
    (hreg : self.registered = true) (h1 : bs.uninstallDpResult = none)
    (h2 : bs.uninstallLfResult = some e) :
    InitrdLoader.uninstall self bs st = some (.error e, self,
      ⟨st.installed.filter
         (fun p => decide (p ≠ (self.handle, .devicePath, .devicePathStatic))),
       st.trace ++
        [.uninstallInterface self.handle .devicePath .devicePathStatic,
         .uninstallInterface self.handle .loadFile2
           (.loadFileProto self.proto)]⟩) := by
  simp [InitrdLoader.uninstall, uninstallProtocolInterface, hreg, h1, h2]

/-- Claim C1: for every loader whose owned payload is `P`, calling the
file-load entrypoint with a non-null output buffer and a caller-supplied
size at least `|P|` writes `|P|` into the size slot, copies exactly the
bytes of `P` into the output buffer starting at offset 0 (leaving the
rest of the buffer untouched), and returns success. -/
theorem claim_C1_load_file_success (p : LoadFile2Protocol) (size : Nat)
    (buf : List Nat) (hsize : p.initrd_data.length ≤ size) :
    raw_load_file p size (some buf) =
      (Status.SUCCESS, p.initrd_data.length,
       some (p.initrd_data ++ buf.drop p.initrd_data.length)) := by
  have hnl : ¬ (size < p.initrd_data.length) := Nat.not_lt.mpr hsize
  simp [raw_load_file, LoadFile2Protocol.load_file, statusOf, hnl]

/-- Witness for C1: payload `[1, 2, 3]`, a 4-byte buffer of nines. -/
theorem claim_C1_witness :
    raw_load_file ⟨[1, 2, 3]⟩ 4 (some [9, 9, 9, 9]) =
      (Status.SUCCESS, 3, some [1, 2, 3, 9]) :=
  claim_C1_load_file_success ⟨[1, 2, 3]⟩ 4 [9, 9, 9, 9] (by decide)

/-- Claim C2: calling the file-load entrypoint with a null output
buffer, or with a caller-supplied size strictly less than the payload
length, returns buffer-too-small, writes the payload length into the
size slot, and writes no bytes into the output buffer. -/
theorem claim_C2_load_file_too_small (p : LoadFile2Protocol) (size : Nat)
    (buffer : Option (List Nat))
    (hfail : buffer = none ∨ size < p.initrd_data.length) :
    raw_load_file p size buffer =
      (Status.BUFFER_TOO_SMALL, p.initrd_data.length, buffer) := by
  rcases hfail with hnull | hlt
  · subst hnull
    simp [raw_load_file, LoadFile2Protocol.load_file, statusOf]
  · cases buffer with
    | none => simp [raw_load_file, LoadFile2Protocol.load_file, statusOf]
    | some buf =>
        simp [raw_load_file, LoadFile2Protocol.load_file, statusOf, hlt]

/-- Witness for C2: a 2-byte buffer for a 3-byte payload, and a null
buffer with a large declared size. -/
theorem claim_C2_witness :
    raw_load_file ⟨[1, 2, 3]⟩ 2 (some [7, 7]) =
      (Status.BUFFER_TOO_SMALL, 3, some [7, 7]) ∧
    raw_load_file ⟨[1, 2, 3]⟩ 1000 none =
      (Status.BUFFER_TOO_SMALL, 3, none) :=
  ⟨claim_C2_load_file_too_small ⟨[1, 2, 3]⟩ 2 (some [7, 7])
      (Or.inr (by decide)),
   claim_C2_load_file_too_small ⟨[1, 2, 3]⟩ 1000 none (Or.inl rfl)⟩

/-- Claim C3 (code bug): the claim — following the spec — demands that
a `.initrd` section whose declared raw-data range has an endpoint
outside the envelope make `initrd_location` fail with the
invalid-envelope error, with offsets and sizes validated before use.
The code performs no such validation: on `c3Env` (10 bytes, section
declaring `[4, 104)`) `initrd_location` returns the out-of-bounds
range `[4, 104)` as ok, and `create` then succeeds, serving the 6
in-bounds bytes zero-padded to the declared 100-byte length. -/
theorem claim_C3_no_bounds_validation :
    initrd_location c3Env = Except.ok ⟨4, 104⟩ ∧
    c3Env.bytes.length < 104 ∧
    payloadOf (InitrdLoader.new bsAllOk 0 c3Env st0) =
      some (c3Env.bytes.drop 4 ++ List.replicate 94 0) :=
  ⟨rfl, by decide, rfl⟩

/-- Counterexample to C4 as stated: on `c4Env` (4 bytes, `.initrd`
section declaring the range `[2, 6)`) `create` succeeds, but the
payload it serves is `[30, 40, 0, 0]` — the two in-bounds bytes
zero-padded to the declared length — which is not the envelope's bytes
in `[2, 6)` (the envelope only has `[30, 40]` there). -/
theorem claim_C4_counterexample :
    payloadOf (InitrdLoader.new bsAllOk 0 c4Env st0) =
      some [30, 40, 0, 0] ∧
    [30, 40, 0, 0] ≠ (c4Env.bytes.drop 2).take 4 :=
  ⟨rfl, by decide⟩

/-- Claim C4 (amended): for every envelope on which `create` succeeds
and whose first `.initrd` section declares a range
`[raw_data_offset, raw_data_offset + raw_data_size)` lying within the
envelope, the payload subsequently served by the file-load entrypoint
(with any large enough buffer) is byte-for-byte the envelope bytes in
that half-open range. -/
theorem claim_C4_roundtrip (bs : BootServices) (h : Handle)
    (env : Envelope) (st st2 : FwState) (ldr : InitrdLoader)
    (r : NatRange) (size : Nat) (buf : List Nat)
    (hok : InitrdLoader.new bs h env st = some (.ok ldr, st2))
    (hloc : initrd_location env = .ok r)
    (hbound : r.stop ≤ env.bytes.length)
    (hsize : r.stop - r.start ≤ size) :
    raw_load_file ldr.proto size (some buf) =
      (Status.SUCCESS, r.stop - r.start,
       some ((env.bytes.drop r.start).take (r.stop - r.start) ++
             buf.drop (r.stop - r.start))) := by
  obtain ⟨-, -, -, -, r2, drained, hloc2, hdrain, hldr, -⟩ :=
    new_ok_cases bs h env st ldr st2 hok
  rw [hloc] at hloc2
  have hr := Except.ok.inj hloc2
  subst hr
  have hstart : r.start ≤ env.bytes.length := by
    by_contra hc
    simp [drainFront, hc] at hdrain
  have hdd : drained = env.bytes.drop r.start := by
    simp [drainFront, hstart] at hdrain
    exact hdrain.symm
  subst hdd
  have hlen2 : r.stop - r.start ≤ (env.bytes.drop r.start).length := by
    rw [List.length_drop]
    omega
  have hval : vecResize (env.bytes.drop r.start) (r.stop - r.start) =
      (env.bytes.drop r.start).take (r.stop - r.start) := by
    unfold vecResize
    rw [if_pos hlen2]
  have hplen :
      ((env.bytes.drop r.start).take (r.stop - r.start)).length =
        r.stop - r.start := by
    rw [List.length_take, List.length_drop]
    omega
  have hnl : ¬ (size < r.stop - r.start) := Nat.not_lt.mpr hsize
  subst hldr
  simp [raw_load_file, LoadFile2Protocol.load_file, statusOf,
    hval, hplen, hnl]

/-- Witness for C4: `exEnv` served through a 3-byte buffer. -/
theorem claim_C4_witness :
    raw_load_file exLoader.proto 3 (some [9, 9, 9]) =
      (Status.SUCCESS, 3, some [104, 105, 106]) :=
  claim_C4_roundtrip bsAllOk 7 exEnv st0 exStAfterNew exLoader
    ⟨4, 7⟩ 3 [9, 9, 9] rfl rfl (by decide) (by decide)

/-- Claim C5: whenever `create` fails because the firmware
authentication probe rejects the envelope, or because no `.initrd`
section is found (payload-missing, `END_OF_FILE`), it returns that
failure and installs no protocol interfaces: the firmware protocol
database is unchanged. -/
theorem claim_C5_create_failure_no_install (bs : BootServices)
    (h : Handle) (env : Envelope) (st : FwState) (e : Status)
    (hcause : bs.loadImageResult = some e ∨
      (bs.loadImageResult = none ∧ bs.unloadImageResult = none ∧
       initrd_location env = .error .END_OF_FILE ∧ e = .END_OF_FILE)) :
    ∃ st2, InitrdLoader.new bs h env st = some (.error e, st2) ∧
      st2.installed = st.installed := by
  rcases hcause with h1 | ⟨h1, h2, h3, he⟩
  · exact ⟨_, new_auth_fail_eval bs h env st e h1, rfl⟩
  · subst he
    exact ⟨_, new_location_fail_eval bs h env st _ h1 h2 h3, rfl⟩

/-- Witness for C5: an envelope rejected by the authentication gate,
and an envelope with no `.initrd` section; neither touches the
protocol database. -/
theorem claim_C5_witness :
    (∃ st2, InitrdLoader.new bsAuthFail 7 exEnv st0 =
        some (.error .ACCESS_DENIED, st2) ∧
      st2.installed = st0.installed) ∧
    (∃ st2, InitrdLoader.new bsAllOk 7 noInitrdEnv st0 =
        some (.error .END_OF_FILE, st2) ∧
      st2.installed = st0.installed) :=
  ⟨claim_C5_create_failure_no_install bsAuthFail 7 exEnv st0
      .ACCESS_DENIED (Or.inl rfl),
   claim_C5_create_failure_no_install bsAllOk 7 noInitrdEnv st0
      .END_OF_FILE (Or.inr ⟨rfl, rfl, rfl, rfl⟩)⟩

/-- Claim C6: in every successful `create` the device-path interface is
installed strictly before the file-load interface (the trace ends with
the two install calls in that order); in every successful `uninstall`
the device-path interface is uninstalled strictly before the file-load
interface; and if the file-load interface install fails after the
device-path install succeeded, `create` returns the failure and the
device-path interface is left installed (no rollback). -/
theorem claim_C6_interface_ordering (bs : BootServices) (h : Handle)
    (env : Envelope) (st st2 : FwState) (ldr : InitrdLoader)
    (self self2 : InitrdLoader) (stu stu2 : FwState)
    (e : Status) (r : NatRange) (drained : List Nat) :
    (InitrdLoader.new bs h env st = some (.ok ldr, st2) →
      st2.trace = st.trace ++ [.loadImage, .unloadImage,
        .installInterface h .devicePath .devicePathStatic,
        .installInterface h .loadFile2 (.loadFileProto ldr.proto)]) ∧
    (InitrdLoader.uninstall self bs stu = some (.ok (), self2, stu2) →
      stu2.trace = stu.trace ++
        [.uninstallInterface self.handle .devicePath .devicePathStatic,
         .uninstallInterface self.handle .loadFile2
           (.loadFileProto self.proto)]) ∧
    (bs.loadImageResult = none → bs.unloadImageResult = none →
     bs.installDpResult = none → bs.installLfResult = some e →
     initrd_location env = .ok r →
     drainFront env.bytes r.start = some drained →
      ∃ stf, InitrdLoader.new bs h env st = some (.error e, stf) ∧
        (h, Guid.devicePath, Interface.devicePathStatic) ∈
          stf.installed) := by
  refine ⟨?_, ?_, ?_⟩
  · intro hok
    obtain ⟨-, -, -, -, r2, drained2, -, -, hldr, hst2⟩ :=
      new_ok_cases bs h env st ldr st2 hok
    subst hst2
    subst hldr
    rfl
  · intro hok
    exact (uninstall_ok_cases self bs stu self2 stu2 hok).2.2.2.2
  · intro h1 h2 h5 h6 h3 h4
    refine ⟨_, new_installLf_fail_eval bs h env st e r drained
      h1 h2 h3 h4 h5 h6, ?_⟩
    simp

/-- Witness for C6: all three parts instantiated on `exEnv`: the create
and uninstall traces, and the state after a failing load-file install
with the device-path entry still present. -/
theorem claim_C6_witness :
    (exStAfterNew.trace = st0.trace ++ [.loadImage, .unloadImage,
      .installInterface 7 .devicePath .devicePathStatic,
      .installInterface 7 .loadFile2 (.loadFileProto exLoader.proto)]) ∧
    (exStAfterUninstall.trace = exStAfterNew.trace ++
      [.uninstallInterface 7 .devicePath .devicePathStatic,
       .uninstallInterface 7 .loadFile2 (.loadFileProto exLoader.proto)]) ∧
    (∃ stf, InitrdLoader.new bsLfInstallFail 7 exEnv st0 =
        some (.error .OUT_OF_RESOURCES, stf) ∧
      (7, Guid.devicePath, Interface.devicePathStatic) ∈ stf.installed) :=
  ⟨(claim_C6_interface_ordering bsAllOk 7 exEnv st0 exStAfterNew exLoader
      exLoader exLoaderDone st0 st0 .OUT_OF_RESOURCES ⟨4, 7⟩ []).1 rfl,
   (claim_C6_interface_ordering bsAllOk 7 exEnv st0 st0 exLoader
      exLoader exLoaderDone exStAfterNew exStAfterUninstall
      .OUT_OF_RESOURCES ⟨4, 7⟩ []).2.1 rfl,
   (claim_C6_interface_ordering bsLfInstallFail 7 exEnv st0 st0 exLoader
      exLoader exLoaderDone st0 st0 .OUT_OF_RESOURCES ⟨4, 7⟩
      [104, 105, 106, 107]).2.2 rfl rfl rfl rfl rfl rfl⟩

/-- Claim C7: lifecycle state machine. Uninstalling while not
registered aborts (the `assert!(self.registered)` fires); after a
successful uninstall the flag is false, a second uninstall aborts, and
dropping the instance fires no assertion and performs no firmware call
(the firmware state is returned untouched); dropping while still
registered aborts. -/
theorem claim_C7_lifecycle (self self2 : InitrdLoader)
    (bs bs2 : BootServices) (st st2 st3 : FwState) :
    (self.registered = false →
      InitrdLoader.uninstall self bs st = none) ∧
    (InitrdLoader.uninstall self bs st = some (.ok (), self2, st2) →
      self2.registered = false ∧
      InitrdLoader.uninstall self2 bs2 st3 = none ∧
      InitrdLoader.drop self2 st3 = some st3) ∧
    (self.registered = true → InitrdLoader.drop self st = none) := by
  refine ⟨?_, ?_, ?_⟩
  · intro hreg
    simp [InitrdLoader.uninstall, hreg]
  · intro hok
    obtain ⟨-, -, -, hself, -⟩ :=
      uninstall_ok_cases self bs st self2 st2 hok
    subst hself
    exact ⟨rfl, by simp [InitrdLoader.uninstall],
      by simp [InitrdLoader.drop]⟩
  · intro hreg
    simp [InitrdLoader.drop, hreg]

/-- Witness for C7: `exLoaderDone` (unregistered) cannot be
uninstalled again and drops cleanly; a successful uninstall of
`exLoader` yields exactly that state; dropping `exLoader` while
registered aborts. -/
theorem claim_C7_witness :
    InitrdLoader.uninstall exLoaderDone bsAllOk st0 = none ∧
    (exLoaderDone.registered = false ∧
      InitrdLoader.uninstall exLoaderDone bsAllOk st0 = none ∧
      InitrdLoader.drop exLoaderDone st0 = some st0) ∧
    InitrdLoader.drop exLoader st0 = none :=
  ⟨(claim_C7_lifecycle exLoaderDone exLoaderDone bsAllOk bsAllOk
      st0 st0 st0).1 rfl,
   (claim_C7_lifecycle exLoader exLoaderDone bsAllOk bsAllOk
      exStAfterNew exStAfterUninstall st0).2.1 rfl,
   (claim_C7_lifecycle exLoader exLoaderDone bsAllOk bsAllOk
      st0 st0 st0).2.2 rfl⟩

/-- Claim C8: the device-path descriptor registered on the handle is
exactly the fixed 24-byte sequence given in the spec's §6, and every
successful `create` registers the pointer into the one shared static
storage (`Interface.devicePathStatic`, the same value for every loader
instance). -/
theorem claim_C8_device_path (bs : BootServices) (h : Handle)
    (env : Envelope) (st st2 : FwState) (ldr : InitrdLoader)
    (hok : InitrdLoader.new bs h env st = some (.ok ldr, st2)) :
    DEVICE_PATH_PROTOCOL = spec_device_path_bytes ∧
    DEVICE_PATH_PROTOCOL.length = 24 ∧
    (h, Guid.devicePath, Interface.devicePathStatic) ∈ st2.installed := by
  obtain ⟨-, -, -, -, r, drained, -, -, -, hst2⟩ :=
    new_ok_cases bs h env st ldr st2 hok
  subst hst2
  exact ⟨by decide, by decide, by simp⟩

/-- Witness for C8: the successful `create` on `exEnv`. -/
theorem claim_C8_witness :
    DEVICE_PATH_PROTOCOL = spec_device_path_bytes ∧
    DEVICE_PATH_PROTOCOL.length = 24 ∧
    (7, Guid.devicePath, Interface.devicePathStatic) ∈
      exStAfterNew.installed :=
  claim_C8_device_path bsAllOk 7 exEnv st0 exStAfterNew exLoader rfl

/-- Claim C9 (implicit): if either firmware uninstall call inside
`uninstall` fails, `uninstall` returns that error and the loader value
is unchanged — in particular `registered` remains true (it is set to
false only after both calls succeed) — so a subsequent drop of the
instance still aborts fatally. -/
theorem claim_C9_uninstall_failure (self : InitrdLoader)
    (bs : BootServices) (st st3 : FwState) (e : Status)
    (hreg : self.registered = true)
    (hfail : bs.uninstallDpResult = some e ∨
      (bs.uninstallDpResult = none ∧ bs.uninstallLfResult = some e)) :
    ∃ st2, InitrdLoader.uninstall self bs st =
        some (.error e, self, st2) ∧
      self.registered = true ∧ InitrdLoader.drop self st3 = none := by
  rcases hfail with h1 | ⟨h1, h2⟩
  · exact ⟨_, uninstall_dp_fail_eval self bs st e hreg h1, hreg,
      by simp [InitrdLoader.drop, hreg]⟩
  · exact ⟨_, uninstall_lf_fail_eval self bs st e hreg h1 h2, hreg,
      by simp [InitrdLoader.drop, hreg]⟩

/-- Witness for C9: the device-path uninstall fails on `exLoader`;
the loader stays registered and dropping it aborts. -/
theorem claim_C9_witness :
    ∃ st2, InitrdLoader.uninstall exLoader bsDpUninstallFail
        exStAfterNew = some (.error .OUT_OF_RESOURCES, exLoader, st2) ∧
      exLoader.registered = true ∧
      InitrdLoader.drop exLoader st0 = none :=
  claim_C9_uninstall_failure exLoader bsDpUninstallFail exStAfterNew st0
    .OUT_OF_RESOURCES rfl (Or.inl rfl)

/-- Claim C10 (implicit): for every envelope of length `L` whose first
`.initrd` section declares a range `[start, stop)` with
`start ≤ L < stop`, and which passes authentication (with firmware
accepting the two interface installs), `create` succeeds and the owned
payload has length `stop - start` and equals the envelope bytes from
`start` to `L` followed by zero bytes up to the declared length. -/
theorem claim_C10_zero_padding (bs : BootServices) (h : Handle)
    (env : Envelope) (st : FwState) (r : NatRange)
    (h1 : bs.loadImageResult = none) (h2 : bs.unloadImageResult = none)
    (h5 : bs.installDpResult = none) (h6 : bs.installLfResult = none)
    (hloc : initrd_location env = .ok r)
    (hstart : r.start ≤ env.bytes.length)
    (hstop : env.bytes.length < r.stop) :
    ∃ ldr st2, InitrdLoader.new bs h env st = some (.ok ldr, st2) ∧
      ldr.proto.initrd_data =
        env.bytes.drop r.start ++
          List.replicate (r.stop - env.bytes.length) 0 ∧
      ldr.proto.initrd_data.length = r.stop - r.start := by
  have hdrain : drainFront env.bytes r.start =
      some (env.bytes.drop r.start) := by
    simp [drainFront, hstart]
  have hlen : (env.bytes.drop r.start).length =
      env.bytes.length - r.start := List.length_drop _ _
  have hnle : ¬ (r.stop - r.start ≤ (env.bytes.drop r.start).length) := by
    rw [hlen]
    omega
  have hval : vecResize (env.bytes.drop r.start) (r.stop - r.start) =
      env.bytes.drop r.start ++
        List.replicate (r.stop - env.bytes.length) 0 := by
    unfold vecResize
    rw [if_neg hnle]
    rw [hlen]
    congr 1
    congr 1
    omega
  refine ⟨⟨⟨vecResize (env.bytes.drop r.start) (r.stop - r.start)⟩,
      h, true⟩, _,
    new_ok_eval bs h env st r _ h1 h2 hloc hdrain h5 h6, hval, ?_⟩
  rw [hval]
  simp [hlen]
  omega

/-- Witness for C10: `c4Env` (4 bytes, section `[2, 6)`): `create`
succeeds and the payload is the last two envelope bytes padded with two
zero bytes. -/
theorem claim_C10_witness :
    ∃ ldr st2, InitrdLoader.new bsAllOk 5 c4Env st0 =
        some (.ok ldr, st2) ∧
      ldr.proto.initrd_data =
        c4Env.bytes.drop 2 ++ List.replicate 2 0 ∧
      ldr.proto.initrd_data.length = 4 :=
  claim_C10_zero_padding bsAllOk 5 c4Env st0 ⟨2, 6⟩ rfl rfl rfl rfl rfl
    (by decide) (by decide)

end LinuxLoader
